import Mathlib

/-!
Verification development for the hardware/GPU detection engine of `llmfit`
(`src/hardware.rs`).  The Rust code is shallowly embedded: every external
observation (command output, filesystem read, sysinfo counter, build-target
flag) is a field of an explicit environment, floating-point numbers are
modelled as exact rationals, and each Rust function becomes a Lean function
of the same name over that environment.
-/

/-! ### String primitives

Structural re-implementations of the Rust `str` operations the code uses
(`contains`, `to_lowercase`, `trim`, `split`, `splitn`, `lines`,
`split_whitespace`, `starts_with`, `trim_end_matches`, numeric parsing),
written so that they evaluate inside the kernel. -/

/-- Checks that the first list is a prefix of the second. -/
def startsList : List Char → List Char → Bool
  | [], _ => true
  | _ :: _, [] => false
  | p :: ps, c :: cs => p == c && startsList ps cs

/-- Checks that `pat` occurs as a contiguous sublist of the second argument. -/
def containsAux (pat : List Char) : List Char → Bool
  | [] => pat.isEmpty
  | c :: cs => startsList pat (c :: cs) || containsAux pat cs

/-- Rust `str::contains` (substring containment test). -/
def strContains (s pat : String) : Bool :=
  containsAux pat.data s.data

/-- Rust `str::starts_with`. -/
def strStartsWith (s pre : String) : Bool :=
  startsList pre.data s.data

/-- Rust `str::to_lowercase` (ASCII-level model). -/
def strLower (s : String) : String :=
  ⟨s.data.map Char.toLower⟩

/-- Rust `str::trim`: drop whitespace from both ends. -/
def strTrim (s : String) : String :=
  ⟨((s.data.dropWhile Char.isWhitespace).reverse.dropWhile Char.isWhitespace).reverse⟩

/-- Fuel-indexed splitter on a non-empty separator pattern. -/
def splitGo (sep : List Char) : Nat → List Char → List Char → List (List Char)
  | 0, cs, acc => [acc.reverse ++ cs]
  | fuel + 1, cs, acc =>
    match cs with
    | [] => [acc.reverse]
    | c :: rest =>
      if startsList sep cs then
        acc.reverse :: splitGo sep fuel (cs.drop sep.length) []
      else
        splitGo sep fuel rest (c :: acc)

/-- Split a character list at every occurrence of `sep`. -/
def splitOnL (sep cs : List Char) : List (List Char) :=
  if sep.isEmpty then [cs] else splitGo sep (cs.length + 1) cs []

/-- Rust `str::split` on a string separator (all pieces kept, empties included). -/
def strSplitOn (s sep : String) : List String :=
  (splitOnL sep.data s.data).map String.mk

/-- Concatenate with a separator between the pieces. -/
def strIntercalate (sep : String) : List String → String
  | [] => ""
  | [a] => a
  | a :: rest => a ++ sep ++ strIntercalate sep rest

/-- Rust `str::splitn(2, sep)`: at most two pieces, the second keeps later separators. -/
def strSplitn2 (s sep : String) : List String :=
  match strSplitOn s sep with
  | [] => []
  | [a] => [a]
  | a :: rest => [a, strIntercalate sep rest]

/-- Rust `str::lines`: split on newlines, drop a final empty segment, strip a
trailing carriage return from each line. -/
def rustLines (s : String) : List String :=
  let ls := strSplitOn s "\n"
  let ls := if ls.getLast? = some "" then ls.dropLast else ls
  ls.map (fun l => if l.data.getLast? = some '\r' then ⟨l.data.dropLast⟩ else l)

/-- Helper for `split_whitespace`: cut at every whitespace character. -/
def splitWsGo : List Char → List Char → List (List Char)
  | [], acc => [acc.reverse]
  | c :: cs, acc =>
    if c.isWhitespace then acc.reverse :: splitWsGo cs []
    else splitWsGo cs (c :: acc)

/-- Rust `str::split_whitespace`: whitespace-separated tokens, no empties. -/
def splitWhitespaceR (s : String) : List String :=
  ((splitWsGo s.data []).filter (fun t => !t.isEmpty)).map String.mk

/-- Numeric value of a digit list (most significant first). -/
def digitsVal (cs : List Char) : Nat :=
  cs.foldl (fun n c => n * 10 + (c.toNat - 48)) 0

/-- Rust `str::parse::<u64>()`: optional leading plus sign, decimal digits,
failure on overflow past `u64::MAX`. -/
def parseU64? (s : String) : Option Nat :=
  let t := if strStartsWith s "+" then s.data.drop 1 else s.data
  if t ≠ [] ∧ t.all Char.isDigit then
    if digitsVal t < 2 ^ 64 then some (digitsVal t) else none
  else none

/-- Rust `str::parse::<f64>()` restricted to plain decimal literals with an
optional sign and an optional fractional part, read exactly into `ℚ`. -/
def parseF64? (s : String) : Option ℚ :=
  let sgn : ℚ × List Char :=
    match s.data with
    | '-' :: r => (-1, r)
    | '+' :: r => (1, r)
    | cs => (1, cs)
  let ip := sgn.2.takeWhile Char.isDigit
  let rest := sgn.2.dropWhile Char.isDigit
  match rest with
  | [] => if ip.isEmpty then none else some (sgn.1 * digitsVal ip)
  | '.' :: fp =>
    if fp.all Char.isDigit ∧ ¬(ip.isEmpty ∧ fp.isEmpty) then
      some (sgn.1 * ((digitsVal ip : ℚ) + (digitsVal fp : ℚ) / 10 ^ fp.length))
    else none
  | _ => none

/-- Rust `str::trim_end_matches(chr)` for the dot character. -/
def dropDotsR (s : String) : String :=
  ⟨(s.data.reverse.dropWhile (fun c => c == '.')).reverse⟩

/-- Index of the last occurrence of a character, as in Rust `str::rfind`. -/
def rfindIdx (cs : List Char) (c : Char) : Option Nat :=
  (cs.reverse.findIdx? (fun x => x == c)).map (fun i => cs.length - 1 - i)

/-- Extract a final bracketed `[...]` segment from an lspci description, or
return the description unchanged when the brackets are absent or inverted. -/
def extractBracketed (desc : String) : String :=
  match rfindIdx desc.data '[', rfindIdx desc.data ']' with
  | some st, some en =>
    if st < en then ⟨(desc.data.drop (st + 1)).take (en - st - 1)⟩ else desc
  | _, _ => desc

/-! ### Data model -/

/-- The acceleration backend enumeration `GpuBackend` from `hardware.rs`. -/
inductive GpuBackend where
  | Cuda
  | Metal
  | Rocm
  | Vulkan
  | Sycl
  | CpuArm
  | CpuX86
deriving DecidableEq

/-- The tuple returned by `SystemSpecs::detect_gpu` and each probe:
`(has_gpu, gpu_vram_gb, gpu_name, gpu_count, unified_memory, backend)`. -/
structure DetectionResult where
  has_gpu : Bool
  gpu_vram_gb : Option ℚ
  gpu_name : Option String
  gpu_count : Nat
  unified_memory : Bool
  backend : GpuBackend

/-- Observation of one external command: `none` models a failed launch, the
flag models `status.success()`, the inner option models UTF-8 decoding of
stdout. -/
abbrev CmdOutput := Option (Bool × Option String)

/-- The text a probe actually gets to parse: present only when the command
launched, exited successfully, and produced valid UTF-8. -/
def cmdText : CmdOutput → Option String
  | some (true, some s) => some s
  | _ => none

/-- One directory entry of `/sys/class/drm`, with the outcome of reading its
`device/vendor` and `device/mem_info_vram_total` attribute files. -/
structure DrmEntry where
  file_name : String
  vendor : Option String
  mem_info_vram_total : Option String

/-- Everything `SystemSpecs::detect` observes about the outside world. -/
structure Env where
  cfg_target_arch_aarch64 : Bool
  cfg_target_os_linux : Bool
  cfg_target_os_windows : Bool
  total_memory : Nat
  available_memory : Nat
  used_memory : Nat
  cpu_brands : List String
  nvidia_smi : CmdOutput
  rocm_smi_vram : CmdOutput
  rocm_smi_name : CmdOutput
  drm_entries : Option (List DrmEntry)
  lspci : CmdOutput
  powershell : CmdOutput
  wmic : CmdOutput
  system_profiler : CmdOutput
  vm_stat : CmdOutput

/-! ### VRAM estimation table (`estimate_vram_from_name`) -/

/-- Ordered token table of `estimate_vram_from_name`: one row per `if` line
of the source, in source order; the final compound line
(`"rx " || "radeon"`) is encoded as two consecutive rows with equal
capacity. -/
def vramTable : List (String × ℚ) :=
  [("5090", 32), ("5080", 16), ("5070 ti", 16), ("5070", 12), ("5060 ti", 16),
   ("5060", 8),
   ("4090", 24), ("4080", 16), ("4070 ti", 12), ("4070", 12), ("4060 ti", 16),
   ("4060", 8),
   ("3090", 24), ("3080 ti", 12), ("3080", 10), ("3070", 8), ("3060 ti", 8),
   ("3060", 12),
   ("h100", 80), ("a100", 80), ("l40", 48), ("a10", 24), ("t4", 16),
   ("9070 xt", 16), ("9070", 12),
   ("7900 xtx", 24), ("7900", 20), ("7800", 16), ("7700", 12), ("7600", 8),
   ("6950", 16), ("6900", 16), ("6800", 16), ("6750", 12), ("6700", 12),
   ("6650", 8), ("6600", 8), ("6500", 4),
   ("5700 xt", 8), ("5700", 8), ("5600", 6), ("5500", 4),
   ("rtx", 8), ("gtx", 4), ("rx ", 8), ("radeon", 8)]

/-- First capacity whose token occurs in the lowercased name; 0 when no row
matches. -/
def estimateLookup : List (String × ℚ) → String → ℚ
  | [], _ => 0
  | (tok, cap) :: rest, lower =>
    if strContains lower tok then cap else estimateLookup rest lower

/-- Fallback VRAM estimation from the GPU model name, in GiB: the ordered
substring-match chain of `estimate_vram_from_name` in `hardware.rs`. -/
def estimate_vram_from_name (name : String) : ℚ :=
  estimateLookup vramTable (strLower name)

/-- `SystemSpecs::infer_gpu_backend`: keyword-based backend choice for a GPU
name surfaced by the Windows query path. -/
def infer_gpu_backend (name : String) : GpuBackend :=
  let lower := strLower name
  if strContains lower "nvidia" || strContains lower "geforce" ||
     strContains lower "quadro" || strContains lower "tesla" ||
     strContains lower "rtx" then
    GpuBackend.Cuda
  else if strContains lower "amd" || strContains lower "radeon" ||
          strContains lower "ati" then
    GpuBackend.Vulkan
  else if strContains lower "intel" || strContains lower "arc" then
    GpuBackend.Sycl
  else
    GpuBackend.Vulkan

/-! ### Probe 1: NVIDIA via nvidia-smi -/

/-- Loop accumulator of the nvidia-smi parsing loop in `detect_gpu`. -/
structure NvAcc where
  total_vram_mb : ℚ
  count : Nat
  first_name : Option String

/-- One iteration of the nvidia-smi line loop: trim, skip empty lines, split
into at most two comma pieces, accumulate a parseable leading VRAM figure and
remember the first device name seen. -/
def nvidia_line_step (acc : NvAcc) (line0 : String) : NvAcc :=
  let line := strTrim line0
  if line.data.isEmpty then acc
  else
    match (strSplitn2 line ",").head? with
    | none => acc
    | some vram_str =>
      match parseF64? (strTrim vram_str) with
      | none => acc
      | some vram_mb =>
        { total_vram_mb := acc.total_vram_mb + vram_mb
          count := acc.count + 1
          first_name :=
            match acc.first_name with
            | some n => some n
            | none =>
              match (strSplitn2 line ",").get? 1 with
              | some nm => some (strTrim nm)
              | none => none }

/-- The nvidia-smi stage of `detect_gpu`: aggregate VRAM and device count over
all lines, substitute a name-based estimate when the total is below 0.1 GiB,
and report CUDA; `none` when the tool failed or no line parsed. -/
def nvidia_probe (out : CmdOutput) : Option DetectionResult :=
  match cmdText out with
  | none => none
  | some text =>
    let acc := (rustLines text).foldl nvidia_line_step ⟨0, 0, none⟩
    if 0 < acc.count then
      let vram_gb := acc.total_vram_mb / 1024
      let vram_gb :=
        if vram_gb < 1 / 10 then
          match acc.first_name with
          | some nm => estimate_vram_from_name nm
          | none => vram_gb
        else vram_gb
      let vram := if 0 < vram_gb then some vram_gb else none
      some ⟨true, vram, acc.first_name, acc.count, false, GpuBackend.Cuda⟩
    else none

/-! ### Probe 2: AMD via rocm-smi (`detect_amd_gpu_rocm`) -/

/-- Value of the trailing numeric token of a memory-report line that mentions
"total" but not "used" (case-insensitively); `none` for any other line. -/
def rocm_total_line? (line : String) : Option Nat :=
  let lower := strLower line
  if strContains lower "total" && !strContains lower "used" then
    ((splitWhitespaceR line).filterMap parseU64?).getLast?
  else none

/-- Sum of the nonzero totals and the number of lines carrying them. -/
def rocm_fold (lines : List String) : Nat × Nat :=
  lines.foldl
    (fun acc line =>
      match rocm_total_line? line with
      | some val => if 0 < val then (acc.1 + val, acc.2 + 1) else acc
      | none => acc)
    (0, 0)

/-- Scan the `--showproductname` report for a nonempty value on a
"Card Series" or "Card Model" line. -/
def rocm_card_name : List String → Option String
  | [] => none
  | line :: rest =>
    let lower := strLower line
    if strContains lower "card series" || strContains lower "card model" then
      match (strSplitOn line ":").get? 1 with
      | some val =>
        if (strTrim val).data.isEmpty then rocm_card_name rest else some (strTrim val)
      | none => rocm_card_name rest
    else rocm_card_name rest

/-- `SystemSpecs::detect_amd_gpu_rocm`: parse the vram report, default to one
device when nothing parsed, parse the product name from the second invocation
and estimate VRAM from it when no byte total was found. -/
def detect_amd_gpu_rocm (vramOut nameOut : CmdOutput) : Option DetectionResult :=
  match cmdText vramOut with
  | none => none
  | some vram_text =>
    let parsed := rocm_fold (rustLines vram_text)
    let gpu_count := if parsed.2 = 0 then 1 else parsed.2
    let gpu_name := (cmdText nameOut).bind (fun t => rocm_card_name (rustLines t))
    let vram_gb : Option ℚ :=
      if 0 < parsed.1 then some ((parsed.1 : ℚ) / 2 ^ 30)
      else
        match gpu_name with
        | some n =>
          if 0 < estimate_vram_from_name n then some (estimate_vram_from_name n) else none
        | none => none
    some ⟨true, vram_gb, gpu_name, gpu_count, false, GpuBackend.Rocm⟩

/-! ### Probe 3: AMD via sysfs (`detect_amd_gpu_sysfs`) -/

/-- Scan of lspci output for a VGA or 3D controller line mentioning AMD/ATI,
extracting the final bracketed product name (`get_amd_gpu_name_lspci`). -/
def amd_lspci_scan : List String → Option String
  | [] => none
  | line :: rest =>
    let lower := strLower line
    if (strContains lower "vga" || strContains lower "3d") &&
       (strContains lower "amd" || strContains lower "ati") then
      match (strSplitOn line "]:").getLast? with
      | some desc0 => some (extractBracketed (strTrim desc0))
      | none => amd_lspci_scan rest
    else amd_lspci_scan rest

/-- `SystemSpecs::get_amd_gpu_name_lspci`. -/
def get_amd_gpu_name_lspci (lspci : CmdOutput) : Option String :=
  (cmdText lspci).bind (fun text => amd_lspci_scan (rustLines text))

/-- Body of the `/sys/class/drm` loop of `detect_amd_gpu_sysfs`: the first
`cardN` entry (no hyphen) whose vendor file reads `0x1002` yields a Vulkan
record, with VRAM from the attribute file or estimated from the lspci name. -/
def amd_sysfs_scan (lspci : CmdOutput) : List DrmEntry → Option DetectionResult
  | [] => none
  | e :: rest =>
    if !strStartsWith e.file_name "card" || strContains e.file_name "-" then
      amd_sysfs_scan lspci rest
    else
      match e.vendor with
      | none => amd_sysfs_scan lspci rest
      | some ven =>
        if strTrim ven ≠ "0x1002" then amd_sysfs_scan lspci rest
        else
          let vram_gb0 : Option ℚ :=
            match e.mem_info_vram_total with
            | some s =>
              match parseU64? (strTrim s) with
              | some b => if 0 < b then some ((b : ℚ) / 2 ^ 30) else none
              | none => none
            | none => none
          let gpu_name := get_amd_gpu_name_lspci lspci
          let vram_gb :=
            match vram_gb0 with
            | some v => some v
            | none =>
              match gpu_name with
              | some nm =>
                if 0 < estimate_vram_from_name nm then some (estimate_vram_from_name nm)
                else none
              | none => none
          some ⟨true, vram_gb, gpu_name, 1, false, GpuBackend.Vulkan⟩

/-- `SystemSpecs::detect_amd_gpu_sysfs`: Linux-only sysfs walk. -/
def detect_amd_gpu_sysfs (cfg_linux : Bool) (drm : Option (List DrmEntry))
    (lspci : CmdOutput) : Option DetectionResult :=
  if !cfg_linux then none
  else
    match drm with
    | some entries => amd_sysfs_scan lspci entries
    | none => none

/-! ### Probe 4: Windows WMI (`detect_gpu_windows`) -/

/-- Names excluded from Windows candidacy. -/
def windows_gpu_excluded (lower : String) : Bool :=
  strContains lower "microsoft" || strContains lower "basic" || strContains lower "virtual"

/-- Loop accumulator of `parse_windows_gpu_entries`. -/
structure WinAcc where
  best_name : Option String
  best_vram : Nat
  count : Nat
deriving DecidableEq

/-- One iteration over a `Name|AdapterRAM` line: skip empty and excluded
entries, count the rest, keep the entry with the largest reported RAM. -/
def windows_ps_step (acc : WinAcc) (line0 : String) : WinAcc :=
  let line := strTrim line0
  if line.data.isEmpty then acc
  else
    let parts := strSplitn2 line "|"
    let name := strTrim (parts.headD "")
    let vram : Nat :=
      match parts.get? 1 with
      | some v => (parseU64? (strTrim v)).getD 0
      | none => 0
    let lower := strLower name
    if windows_gpu_excluded lower || lower.data.isEmpty then acc
    else
      { best_name := if acc.best_vram < vram || acc.best_name.isNone then some name else acc.best_name
        best_vram := if acc.best_vram < vram || acc.best_name.isNone then vram else acc.best_vram
        count := acc.count + 1 }

/-- Candidate selection over all lines of the PowerShell output. -/
def parse_windows_best (text : String) : WinAcc :=
  (rustLines text).foldl windows_ps_step ⟨none, 0, 0⟩

/-- Correction applied to the selected adapter's RAM reading: the WMI field is
a 32-bit counter, so a suspicious reading is replaced by a positive estimation
table value. -/
def windows_vram_fixup (name : String) (best_vram : Nat) : ℚ :=
  let vram_gb : ℚ := (best_vram : ℚ) / 2 ^ 30
  if vram_gb < 1 / 10 ∨ (vram_gb ≤ 41 / 10 ∧ 41 / 10 < estimate_vram_from_name name) then
    if 0 < estimate_vram_from_name name then estimate_vram_from_name name else vram_gb
  else vram_gb

/-- `SystemSpecs::parse_windows_gpu_entries`. -/
def parse_windows_gpu_entries (text : String) : Option DetectionResult :=
  let acc := parse_windows_best text
  match acc.best_name with
  | some name =>
    let vram_gb := windows_vram_fixup name acc.best_vram
    let vram := if 0 < vram_gb then some vram_gb else none
    some ⟨true, vram, some name, max acc.count 1, false, infer_gpu_backend name⟩
  | none => none

/-- One iteration over a wmic CSV line (`Node,AdapterRAM,Name`). -/
def windows_wmic_step (acc : Option String × Nat) (line0 : String) : Option String × Nat :=
  let line := strTrim line0
  if line.data.isEmpty then acc
  else
    let parts := strSplitOn line ","
    if 3 ≤ parts.length then
      let vram := (parseU64? (strTrim (parts.getD 1 ""))).getD 0
      let name := strTrim (strIntercalate "," (parts.drop 2))
      if windows_gpu_excluded (strLower name) then acc
      else if acc.2 < vram || acc.1.isNone then (some name, vram) else acc
    else acc

/-- `SystemSpecs::detect_gpu_windows_wmic`: legacy CSV path, fixed device
count of one. -/
def detect_gpu_windows_wmic (wmic : CmdOutput) : Option DetectionResult :=
  match cmdText wmic with
  | none => none
  | some text =>
    let acc := ((rustLines text).drop 1).foldl windows_wmic_step (none, 0)
    match acc.1 with
    | some name =>
      let vram_gb := windows_vram_fixup name acc.2
      let vram := if 0 < vram_gb then some vram_gb else none
      some ⟨true, vram, some name, 1, false, infer_gpu_backend name⟩
    | none => none

/-- `SystemSpecs::detect_gpu_windows`: PowerShell query with wmic fallback
taken only when the PowerShell invocation launched but exited unsuccessfully. -/
def detect_gpu_windows (cfg_windows : Bool) (powershell wmic : CmdOutput) :
    Option DetectionResult :=
  if !cfg_windows then none
  else
    match powershell with
    | none => none
    | some (false, _) => detect_gpu_windows_wmic wmic
    | some (true, none) => none
    | some (true, some text) => parse_windows_gpu_entries text

/-! ### Probe 5: Intel via sysfs (`detect_intel_gpu`) -/

/-- Check of the lspci text for a line mentioning both "intel" and "arc". -/
def lspci_has_intel_arc (lspci : CmdOutput) : Bool :=
  match cmdText lspci with
  | none => false
  | some text =>
    (rustLines text).any (fun line =>
      strContains (strLower line) "intel" && strContains (strLower line) "arc")

/-- What one DRM entry that passed the vendor gate contributes: a direct
positive VRAM attribute reading, else the integrated-Arc zero sentinel when
lspci mentions an Intel Arc, else nothing. -/
def intel_entry_check (lspci : CmdOutput) (e : DrmEntry) : Option ℚ :=
  let direct : Option ℚ :=
    match e.mem_info_vram_total with
    | some s =>
      match parseU64? (strTrim s) with
      | some b => if 0 < b then some ((b : ℚ) / 2 ^ 30) else none
      | none => none
    | none => none
  match direct with
  | some v => some v
  | none => if lspci_has_intel_arc lspci then some 0 else none

/-- The `/sys/class/drm` loop of `detect_intel_gpu`.  An entry whose vendor
file reads as a non-Intel id is skipped; an entry whose vendor file cannot be
read falls through to the VRAM check, mirroring the missing else branch in
the source. -/
def intel_drm_scan (lspci : CmdOutput) : List DrmEntry → Option ℚ
  | [] => none
  | e :: rest =>
    match e.vendor with
    | some ven =>
      if strTrim ven ≠ "0x8086" then intel_drm_scan lspci rest
      else
        match intel_entry_check lspci e with
        | some v => some v
        | none => intel_drm_scan lspci rest
    | none =>
      match intel_entry_check lspci e with
      | some v => some v
      | none => intel_drm_scan lspci rest

/-- `SystemSpecs::detect_intel_gpu`: sysfs walk, then a direct lspci scan as
fallback. -/
def detect_intel_gpu (drm : Option (List DrmEntry)) (lspci : CmdOutput) : Option ℚ :=
  let fromDrm : Option ℚ :=
    match drm with
    | some entries => intel_drm_scan lspci entries
    | none => none
  match fromDrm with
  | some v => some v
  | none => if lspci_has_intel_arc lspci then some 0 else none

/-! ### Probe 6: Apple Silicon (`detect_apple_gpu`) -/

/-- `SystemSpecs::detect_apple_gpu`: report the received RAM figure as the
unified-memory pool size when the system-profiler text names a first-party
chip. -/
def detect_apple_gpu (total_ram_gb : ℚ) (sp : CmdOutput) : Option ℚ :=
  match cmdText sp with
  | none => none
  | some text =>
    if (rustLines text).any (fun line =>
        strContains (strLower line) "apple m" || strContains (strLower line) "apple gpu") then
      some total_ram_gb
    else none

/-! ### Available-memory fallback -/

/-- `SystemSpecs::parse_vm_stat_line`: value of a `Pages ...:  N.` line. -/
def parse_vm_stat_line (line key : String) : Option Nat :=
  if strStartsWith line key then
    match (strSplitOn line ":").get? 1 with
    | some v => parseU64? (dropDotsR (strTrim v))
    | none => none
  else none

/-- Page size parsed from the vm_stat header line, defaulting to 16 KiB. -/
def vm_stat_page_size (lines : List String) : Nat :=
  (lines.head?.bind (fun line =>
    ((strSplitOn line "page size of ").get? 1).bind (fun r =>
      (strSplitOn r " ").head?.bind parseU64?))).getD 16384

/-- Last-seen page counts for the free, inactive and purgeable lines. -/
def vm_stat_counts (lines : List String) : Nat × Nat × Nat :=
  lines.foldl
    (fun acc line =>
      match parse_vm_stat_line line "Pages free" with
      | some v => (v, acc.2.1, acc.2.2)
      | none =>
        match parse_vm_stat_line line "Pages inactive" with
        | some v => (acc.1, v, acc.2.2)
        | none =>
          match parse_vm_stat_line line "Pages purgeable" with
          | some v => (acc.1, acc.2.1, v)
          | none => acc)
    (0, 0, 0)

/-- `SystemSpecs::available_ram_from_vm_stat`: `(free + inactive + purgeable)`
pages times the page size, reported only when positive. -/
def available_ram_from_vm_stat (vmOut : CmdOutput) : Option ℚ :=
  match cmdText vmOut with
  | none => none
  | some text =>
    let lines := rustLines text
    let c := vm_stat_counts lines
    let available_bytes := (c.1 + c.2.1 + c.2.2) * vm_stat_page_size lines
    if 0 < available_bytes then some ((available_bytes : ℚ) / 2 ^ 30) else none

/-- `SystemSpecs::available_ram_fallback`: `total - used` when plausible, then
vm_stat, then 80% of total. -/
def available_ram_fallback (used total_bytes : Nat) (total_gb : ℚ)
    (vmOut : CmdOutput) : ℚ :=
  if 0 < used ∧ used < total_bytes then ((total_bytes - used : Nat) : ℚ) / 2 ^ 30
  else
    match available_ram_from_vm_stat vmOut with
    | some avail => avail
    | none => total_gb * (4 / 5)

/-! ### The probe chain (`detect_gpu`) and the snapshot (`detect`) -/

/-- `SystemSpecs::detect_gpu`: the ordered probe chain; first success wins,
and with no accelerator signal the CPU backend picked from the build target
and the CPU name is reported. -/
def detect_gpu (env : Env) (available_ram_gb : ℚ) (cpu_name : String) : DetectionResult :=
  let cpu_backend :=
    if env.cfg_target_arch_aarch64 || strContains (strLower cpu_name) "apple" then
      GpuBackend.CpuArm
    else GpuBackend.CpuX86
  match nvidia_probe env.nvidia_smi with
  | some r => r
  | none =>
    match detect_amd_gpu_rocm env.rocm_smi_vram env.rocm_smi_name with
    | some r => r
    | none =>
      match detect_amd_gpu_sysfs env.cfg_target_os_linux env.drm_entries env.lspci with
      | some r => r
      | none =>
        match detect_gpu_windows env.cfg_target_os_windows env.powershell env.wmic with
        | some r => r
        | none =>
          match detect_intel_gpu env.drm_entries env.lspci with
          | some vram => ⟨true, some vram, some "Intel Arc", 1, false, GpuBackend.Sycl⟩
          | none =>
            match detect_apple_gpu available_ram_gb env.system_profiler with
            | some vram =>
              let name :=
                if strContains (strLower cpu_name) "apple" then some cpu_name
                else some "Apple Silicon"
              ⟨true, some vram, name, 1, true, GpuBackend.Metal⟩
            | none => ⟨false, none, none, 0, false, cpu_backend⟩

/-- The snapshot structure `SystemSpecs`. -/
structure SystemSpecs where
  total_ram_gb : ℚ
  available_ram_gb : ℚ
  total_cpu_cores : Nat
  cpu_name : String
  has_gpu : Bool
  gpu_vram_gb : Option ℚ
  gpu_name : Option String
  gpu_count : Nat
  unified_memory : Bool
  backend : GpuBackend

/-- Total RAM in GiB as computed at the top of `SystemSpecs::detect`. -/
def snapshot_total_ram_gb (env : Env) : ℚ :=
  (env.total_memory : ℚ) / 2 ^ 30

/-- Available RAM in GiB as computed by `SystemSpecs::detect`: the direct
conversion, or the layered fallback when the reading is zero while total is
positive. -/
def snapshot_available_ram_gb (env : Env) : ℚ :=
  if env.available_memory = 0 ∧ 0 < env.total_memory then
    available_ram_fallback env.used_memory env.total_memory
      (snapshot_total_ram_gb env) env.vm_stat
  else (env.available_memory : ℚ) / 2 ^ 30

/-- CPU brand string of the first core, with the placeholder for an empty
core list. -/
def snapshot_cpu_name (env : Env) : String :=
  (env.cpu_brands.head?).getD "Unknown CPU"

/-- `SystemSpecs::detect`: memory figures (with the zero-available fallback),
CPU identity, then the probe chain, assembled into one snapshot.  The probe
chain receives the available-RAM figure exactly as in the source. -/
def SystemSpecs.detect (env : Env) : SystemSpecs :=
  let r := detect_gpu env (snapshot_available_ram_gb env) (snapshot_cpu_name env)
  { total_ram_gb := snapshot_total_ram_gb env
    available_ram_gb := snapshot_available_ram_gb env
    total_cpu_cores := env.cpu_brands.length
    cpu_name := snapshot_cpu_name env
    has_gpu := r.has_gpu
    gpu_vram_gb := r.gpu_vram_gb
    gpu_name := r.gpu_name
    gpu_count := r.gpu_count
    unified_memory := r.unified_memory
    backend := r.backend }

/-! ### Derived observation functions and fixtures used to state the claims -/

/-- VRAM figure carried by one nvidia-smi line: the parseable leading
comma-field of a nonempty trimmed line. -/
def lineVram? (line : String) : Option ℚ :=
  let t := strTrim line
  if t.data.isEmpty then none
  else ((strSplitn2 t ",").head?).bind (fun v => parseF64? (strTrim v))

/-- Device name carried by one nvidia-smi line (the second comma-field). -/
def lineName? (line : String) : Option String :=
  ((strSplitn2 (strTrim line) ",").get? 1).map strTrim

/-- Sum of the per-line VRAM figures of an nvidia-smi report. -/
def sumVram (lines : List String) : ℚ :=
  (lines.map (fun l => (lineVram? l).getD 0)).sum

/-- Adapter name carried by one `Name|AdapterRAM` line of the Windows query. -/
def windows_line_name (line : String) : String :=
  strTrim ((strSplitn2 (strTrim line) "|").headD "")

/-- The CPU-only backend the chain falls back to, as computed at the top of
`detect_gpu` from the build target and the CPU brand string. -/
def cpu_fallback_backend (aarch64 : Bool) (cpu_name : String) : GpuBackend :=
  if aarch64 || strContains (strLower cpu_name) "apple" then GpuBackend.CpuArm
  else GpuBackend.CpuX86

/-- Environment in which every external observation is absent: every probe
defers. -/
def baseEnv : Env where
  cfg_target_arch_aarch64 := false
  cfg_target_os_linux := false
  cfg_target_os_windows := false
  total_memory := 0
  available_memory := 0
  used_memory := 0
  cpu_brands := []
  nvidia_smi := none
  rocm_smi_vram := none
  rocm_smi_name := none
  drm_entries := none
  lspci := none
  powershell := none
  wmic := none
  system_profiler := none
  vm_stat := none

/-- Environment of the unified-memory failing input: an Apple Silicon host
with 16 GiB total RAM of which 8 GiB are available, every other probe
deferring. -/
def appleEnv : Env :=
  { baseEnv with
    total_memory := 16 * 2 ^ 30
    available_memory := 8 * 2 ^ 30
    cpu_brands := ["Apple M2 Max"]
    system_profiler := some (true, some "Chipset Model: Apple M2 Max") }

/-! ### Theorems -/

/-- Every capacity of the lookup helper is nonnegative when the table rows
are. -/
theorem estimateLookup_nonneg (table : List (String × ℚ)) (lower : String)
    (h : ∀ p ∈ table, 0 ≤ p.2) : 0 ≤ estimateLookup table lower := by
  induction table with
  | nil => simp [estimateLookup]
  | cons p rest ih =>
    rw [estimateLookup]
    split
    · exact h p (by simp)
    · exact ih (fun q hq => h q (by simp [hq]))

/-- The estimation table never returns a negative capacity. -/
theorem estimate_vram_nonneg (name : String) : 0 ≤ estimate_vram_from_name name :=
  estimateLookup_nonneg _ _ (by decide)

/-- C4 fails as stated: a name containing "5070 ti" together with an
earlier-checked token resolves to that earlier token's capacity. -/
theorem claim_C4_counterexample :
    estimate_vram_from_name "RTX 5090 & RTX 5070 Ti" = 32 ∧ (32 : ℚ) ≠ 16 := by
  constructor
  · simp +decide [estimate_vram_from_name]
  · norm_num

/-- C4 (amended): any name whose lowercase form contains "5070 ti" and
contains neither of the two tokens checked earlier ("5090", "5080") resolves
to the Ti capacity 16, even though the name also contains "5070". -/
theorem claim_C4_amended (name : String)
    (h1 : strContains (strLower name) "5070 ti" = true)
    (h2 : strContains (strLower name) "5090" = false)
    (h3 : strContains (strLower name) "5080" = false) :
    estimate_vram_from_name name = 16 := by
  unfold estimate_vram_from_name vramTable
  simp [estimateLookup, h1, h2, h3]

/-- C4 witness: the amended theorem applied to a concrete RTX 5070 Ti name. -/
theorem claim_C4_witness :
    estimate_vram_from_name "NVIDIA GeForce RTX 5070 Ti" = 16 :=
  claim_C4_amended "NVIDIA GeForce RTX 5070 Ti" (by decide) (by decide) (by decide)

/-- A line that is empty after trimming, or whose name field is excluded,
leaves the Windows selection accumulator unchanged. -/
theorem windows_ps_step_skip (acc : WinAcc) (line : String)
    (h : (strTrim line).data.isEmpty = true ∨
      windows_gpu_excluded (strLower (windows_line_name line)) = true) :
    windows_ps_step acc line = acc := by
  unfold windows_ps_step
  rcases h with h | h
  · simp [h]
  · unfold windows_line_name at h
    by_cases he : (strTrim line).data.isEmpty
    · simp [he]
    · simp only [he]
      rw [if_neg (by simp [he]), if_pos]
      rw [Bool.or_eq_true]
      exact Or.inl h

/-- C8: when every line of the PowerShell output is blank or carries an
excluded adapter name ("microsoft", "basic" or "virtual", case-insensitive),
the Windows probe parses no candidate and defers with `none`. -/
theorem claim_C8_all_excluded (text : String)
    (h : ∀ l ∈ rustLines text, (strTrim l).data.isEmpty = true ∨
      windows_gpu_excluded (strLower (windows_line_name l)) = true) :
    parse_windows_gpu_entries text = none := by
  have hfold : parse_windows_best text = ⟨none, 0, 0⟩ := by
    unfold parse_windows_best
    have : ∀ (ls : List String), (∀ l ∈ ls, (strTrim l).data.isEmpty = true ∨
        windows_gpu_excluded (strLower (windows_line_name l)) = true) →
        ls.foldl windows_ps_step ⟨none, 0, 0⟩ = ⟨none, 0, 0⟩ := by
      intro ls
      induction ls with
      | nil => intro _; rfl
      | cons l rest ih =>
        intro hl
        rw [List.foldl_cons, windows_ps_step_skip _ _ (hl l (by simp))]
        exact ih (fun x hx => hl x (by simp [hx]))
    exact this _ h
  unfold parse_windows_gpu_entries
  rw [hfold]

/-- C8 witness: a candidate list containing only virtual/basic adapters. -/
theorem claim_C8_witness :
    parse_windows_gpu_entries
      "Microsoft Basic Display Adapter|1073741824\nVirtual Display|0\n" = none :=
  claim_C8_all_excluded _ (by decide)

/-- The name-based backend inference never selects a CPU-only backend. -/
theorem infer_gpu_backend_not_cpu (name : String) :
    infer_gpu_backend name ≠ GpuBackend.CpuArm ∧ infer_gpu_backend name ≠ GpuBackend.CpuX86 := by
  unfold infer_gpu_backend
  dsimp only
  split_ifs <;> simp

/-- A successful nvidia-smi probe reports a present GPU, a positive device
count and the CUDA backend. -/
theorem nvidia_probe_some (o : CmdOutput) (r : DetectionResult)
    (h : nvidia_probe o = some r) :
    r.has_gpu = true ∧ 1 ≤ r.gpu_count ∧ r.backend = GpuBackend.Cuda := by
  unfold nvidia_probe at h
  rcases hc : cmdText o with _ | text
  · rw [hc] at h; exact absurd h (by simp)
  · rw [hc] at h
    dsimp only at h
    split at h
    · rename_i hcnt
      cases h
      exact ⟨rfl, hcnt, rfl⟩
    · exact absurd h (by simp)

/-- A successful rocm-smi probe reports a present GPU, a positive device
count and the ROCm backend. -/
theorem rocm_probe_some (v n : CmdOutput) (r : DetectionResult)
    (h : detect_amd_gpu_rocm v n = some r) :
    r.has_gpu = true ∧ 1 ≤ r.gpu_count ∧ r.backend = GpuBackend.Rocm := by
  unfold detect_amd_gpu_rocm at h
  rcases hc : cmdText v with _ | text
  · rw [hc] at h; exact absurd h (by simp)
  · rw [hc] at h
    dsimp only at h
    cases h
    refine ⟨rfl, ?_, rfl⟩
    dsimp only
    split <;> omega

/-- A hit in the AMD sysfs walk reports a present GPU, one device and the
Vulkan backend. -/
theorem amd_sysfs_scan_some (lspci : CmdOutput) (entries : List DrmEntry)
    (r : DetectionResult) (h : amd_sysfs_scan lspci entries = some r) :
    r.has_gpu = true ∧ 1 ≤ r.gpu_count ∧ r.backend = GpuBackend.Vulkan := by
  induction entries with
  | nil => exact absurd h (by simp [amd_sysfs_scan])
  | cons e rest ih =>
    rw [amd_sysfs_scan] at h
    split at h
    · exact ih h
    · rcases he : e.vendor with _ | ven
      · rw [he] at h; exact ih h
      · rw [he] at h
        dsimp only at h
        split at h
        · exact ih h
        · cases h
          exact ⟨rfl, le_refl 1, rfl⟩

/-- A successful AMD sysfs probe reports a present GPU, one device and the
Vulkan backend. -/
theorem detect_amd_gpu_sysfs_some (cfg : Bool) (drm : Option (List DrmEntry))
    (lspci : CmdOutput) (r : DetectionResult)
    (h : detect_amd_gpu_sysfs cfg drm lspci = some r) :
    r.has_gpu = true ∧ 1 ≤ r.gpu_count ∧ r.backend = GpuBackend.Vulkan := by
  unfold detect_amd_gpu_sysfs at h
  split at h
  · exact absurd h (by simp)
  · rcases hd : drm with _ | entries
    · rw [hd] at h; exact absurd h (by simp)
    · rw [hd] at h; exact amd_sysfs_scan_some _ _ _ h

/-- A successful PowerShell parse reports a present GPU, a positive device
count and a non-CPU backend inferred from the selected name. -/
theorem parse_windows_gpu_entries_some (text : String) (r : DetectionResult)
    (h : parse_windows_gpu_entries text = some r) :
    r.has_gpu = true ∧ 1 ≤ r.gpu_count ∧
      r.backend ≠ GpuBackend.CpuArm ∧ r.backend ≠ GpuBackend.CpuX86 := by
  unfold parse_windows_gpu_entries at h
  dsimp only at h
  rcases hb : (parse_windows_best text).best_name with _ | name
  · rw [hb] at h; exact absurd h (by simp)
  · rw [hb] at h
    dsimp only at h
    cases h
    refine ⟨rfl, ?_, infer_gpu_backend_not_cpu name⟩
    dsimp only
    omega

/-- A successful wmic parse reports a present GPU, one device and a non-CPU
backend inferred from the selected name. -/
theorem detect_gpu_windows_wmic_some (wmic : CmdOutput) (r : DetectionResult)
    (h : detect_gpu_windows_wmic wmic = some r) :
    r.has_gpu = true ∧ 1 ≤ r.gpu_count ∧
      r.backend ≠ GpuBackend.CpuArm ∧ r.backend ≠ GpuBackend.CpuX86 := by
  unfold detect_gpu_windows_wmic at h
  rcases hc : cmdText wmic with _ | text
  · rw [hc] at h; exact absurd h (by simp)
  · rw [hc] at h
    dsimp only at h
    rcases hb : (((rustLines text).drop 1).foldl windows_wmic_step (none, 0)).1 with _ | name
    · rw [hb] at h; exact absurd h (by simp)
    · rw [hb] at h
      dsimp only at h
      cases h
      exact ⟨rfl, le_refl 1, infer_gpu_backend_not_cpu name⟩

/-- A successful Windows probe reports a present GPU, a positive device count
and a non-CPU backend. -/
theorem detect_gpu_windows_some (cfg : Bool) (ps wmic : CmdOutput)
    (r : DetectionResult) (h : detect_gpu_windows cfg ps wmic = some r) :
    r.has_gpu = true ∧ 1 ≤ r.gpu_count ∧
      r.backend ≠ GpuBackend.CpuArm ∧ r.backend ≠ GpuBackend.CpuX86 := by
  unfold detect_gpu_windows at h
  split at h
  · exact absurd h (by simp)
  · rcases hp : ps with _ | ⟨flag, body⟩
    · rw [hp] at h; exact absurd h (by simp)
    · rw [hp] at h
      rcases flag with _ | _
      · exact detect_gpu_windows_wmic_some _ _ h
      · rcases hb : body with _ | text
        · rw [hb] at h; exact absurd h (by simp)
        · rw [hb] at h; exact parse_windows_gpu_entries_some _ _ h

/-- Shape of every `detect_gpu` outcome: either the exact CPU-only fallback
record, or a GPU record with a positive device count and a non-CPU backend. -/
theorem detect_gpu_shape (env : Env) (a : ℚ) (c : String) :
    detect_gpu env a c =
      ⟨false, none, none, 0, false, cpu_fallback_backend env.cfg_target_arch_aarch64 c⟩ ∨
    ((detect_gpu env a c).has_gpu = true ∧ 1 ≤ (detect_gpu env a c).gpu_count ∧
      (detect_gpu env a c).backend ≠ GpuBackend.CpuArm ∧
      (detect_gpu env a c).backend ≠ GpuBackend.CpuX86) := by
  unfold detect_gpu
  rcases h1 : nvidia_probe env.nvidia_smi with _ | r1
  · rcases h2 : detect_amd_gpu_rocm env.rocm_smi_vram env.rocm_smi_name with _ | r2
    · rcases h3 : detect_amd_gpu_sysfs env.cfg_target_os_linux env.drm_entries env.lspci with _ | r3
      · rcases h4 : detect_gpu_windows env.cfg_target_os_windows env.powershell env.wmic with _ | r4
        · rcases h5 : detect_intel_gpu env.drm_entries env.lspci with _ | v5
          · rcases h6 : detect_apple_gpu a env.system_profiler with _ | v6
            · left; rfl
            · right; exact ⟨rfl, le_refl 1, by simp, by simp⟩
          · right; exact ⟨rfl, le_refl 1, by simp, by simp⟩
        · right
          obtain ⟨hg, hc, hb1, hb2⟩ := detect_gpu_windows_some _ _ _ _ h4
          exact ⟨hg, hc, hb1, hb2⟩
      · right
        obtain ⟨hg, hc, hb⟩ := detect_amd_gpu_sysfs_some _ _ _ _ h3
        exact ⟨hg, hc, by rw [hb]; simp, by rw [hb]; simp⟩
    · right
      obtain ⟨hg, hc, hb⟩ := rocm_probe_some _ _ _ h2
      exact ⟨hg, hc, by rw [hb]; simp, by rw [hb]; simp⟩
  · right
    obtain ⟨hg, hc, hb⟩ := nvidia_probe_some _ _ h1
    exact ⟨hg, hc, by rw [hb]; simp, by rw [hb]; simp⟩

/-- C10: every snapshot is well formed: `has_gpu` is false exactly when the
device count is zero; an absent GPU comes with no VRAM figure, no name, no
unified memory and one of the two CPU-only backends; a present GPU never
carries a CPU-only backend. -/
theorem claim_C10_snapshot_invariant (env : Env) :
    ((SystemSpecs.detect env).has_gpu = false ↔ (SystemSpecs.detect env).gpu_count = 0) ∧
    ((SystemSpecs.detect env).has_gpu = false →
      (SystemSpecs.detect env).gpu_vram_gb = none ∧
      (SystemSpecs.detect env).gpu_name = none ∧
      (SystemSpecs.detect env).unified_memory = false ∧
      ((SystemSpecs.detect env).backend = GpuBackend.CpuArm ∨
        (SystemSpecs.detect env).backend = GpuBackend.CpuX86)) ∧
    ((SystemSpecs.detect env).has_gpu = true →
      (SystemSpecs.detect env).backend ≠ GpuBackend.CpuArm ∧
      (SystemSpecs.detect env).backend ≠ GpuBackend.CpuX86) := by
  have hs : (SystemSpecs.detect env).has_gpu =
      (detect_gpu env (snapshot_available_ram_gb env) (snapshot_cpu_name env)).has_gpu := rfl
  have hv : (SystemSpecs.detect env).gpu_vram_gb =
      (detect_gpu env (snapshot_available_ram_gb env) (snapshot_cpu_name env)).gpu_vram_gb := rfl
  have hn : (SystemSpecs.detect env).gpu_name =
      (detect_gpu env (snapshot_available_ram_gb env) (snapshot_cpu_name env)).gpu_name := rfl
  have hcnt : (SystemSpecs.detect env).gpu_count =
      (detect_gpu env (snapshot_available_ram_gb env) (snapshot_cpu_name env)).gpu_count := rfl
  have hu : (SystemSpecs.detect env).unified_memory =
      (detect_gpu env (snapshot_available_ram_gb env) (snapshot_cpu_name env)).unified_memory := rfl
  have hb : (SystemSpecs.detect env).backend =
      (detect_gpu env (snapshot_available_ram_gb env) (snapshot_cpu_name env)).backend := rfl
  rw [hs, hv, hn, hcnt, hu, hb]
  rcases detect_gpu_shape env (snapshot_available_ram_gb env) (snapshot_cpu_name env) with
    h | ⟨hg, hc, h1, h2⟩
  · rw [h]
    refine ⟨by simp, ?_, by simp⟩
    intro _
    refine ⟨rfl, rfl, rfl, ?_⟩
    unfold cpu_fallback_backend
    split
    · exact Or.inl rfl
    · exact Or.inr rfl
  · refine ⟨?_, ?_, fun _ => ⟨h1, h2⟩⟩
    · rw [hg]
      constructor
      · intro hfalse; cases hfalse
      · intro hzero; omega
    · intro hfalse
      rw [hg] at hfalse
      cases hfalse

/-- C3 fails as stated: with every probe deferring and a CPU name carrying no
ARM/first-party marker, an aarch64 build target still selects the ARM-family
CPU backend, so the choice is not independent of the host build target. -/
theorem claim_C3_counterexample :
    strContains (strLower "Intel(R) Xeon(R) Gold") "apple" = false ∧
    (detect_gpu { baseEnv with cfg_target_arch_aarch64 := true } 0
        "Intel(R) Xeon(R) Gold").has_gpu = false ∧
    (detect_gpu { baseEnv with cfg_target_arch_aarch64 := true } 0
        "Intel(R) Xeon(R) Gold").backend = GpuBackend.CpuArm ∧
    GpuBackend.CpuArm ≠ GpuBackend.CpuX86 := by
  refine ⟨by decide, by decide, by decide, by decide⟩

/-- C3 (amended): when the probe chain reports no GPU, the backend is the
ARM-family CPU backend exactly when the build target is aarch64 or the
lowercased CPU name contains "apple", and the x86-family CPU backend
otherwise. -/
theorem claim_C3_amended (env : Env) (a : ℚ) (cpu_name : String)
    (h : (detect_gpu env a cpu_name).has_gpu = false) :
    (detect_gpu env a cpu_name).backend =
      cpu_fallback_backend env.cfg_target_arch_aarch64 cpu_name := by
  rcases detect_gpu_shape env a cpu_name with hsh | ⟨hg, _, _, _⟩
  · rw [hsh]
  · rw [hg] at h; cases h

/-- C3 witness: on a non-aarch64 build with a CPU name free of the marker,
the amended theorem yields the x86-family CPU backend. -/
theorem claim_C3_witness :
    (detect_gpu baseEnv 0 "Intel Core i7").backend =
      cpu_fallback_backend false "Intel Core i7" :=
  claim_C3_amended baseEnv 0 "Intel Core i7" (by decide)

/-- When no memory-report line carries a nonzero total, the rocm parsing fold
stays at zero bytes and zero counted devices. -/
theorem rocm_fold_zero (lines : List String)
    (h : ∀ l ∈ lines, ∀ v, rocm_total_line? l = some v → v = 0) :
    rocm_fold lines = (0, 0) := by
  unfold rocm_fold
  induction lines with
  | nil => rfl
  | cons l rest ih =>
    rw [List.foldl_cons]
    have hstep : (match rocm_total_line? l with
        | some val => if 0 < val then ((0:Nat) + val, (0:Nat) + 1) else (0, 0)
        | none => ((0:Nat), (0:Nat))) = ((0:Nat), (0:Nat)) := by
      rcases hl : rocm_total_line? l with _ | v
      · rfl
      · have hv0 : v = 0 := h l (by simp) v hl
        simp [hv0]
    rw [hstep]
    exact ih (fun x hx => h x (by simp [hx]))

/-- C9: when the vram report of a successful rocm-smi invocation contains no
"Total" (non-"Used") line with a nonzero trailing numeric token, the probe
still reports a present GPU with device count exactly one, and the VRAM is
the estimation-table value of the parsed product name when that estimate is
positive, `none` otherwise. -/
theorem claim_C9_rocm_no_total (vram_text : String) (nameOut : CmdOutput)
    (h : ∀ l ∈ rustLines vram_text, ∀ v, rocm_total_line? l = some v → v = 0) :
    detect_amd_gpu_rocm (some (true, some vram_text)) nameOut =
      some ⟨true,
        match (cmdText nameOut).bind (fun t => rocm_card_name (rustLines t)) with
        | some n =>
          if 0 < estimate_vram_from_name n then some (estimate_vram_from_name n) else none
        | none => none,
        (cmdText nameOut).bind (fun t => rocm_card_name (rustLines t)),
        1, false, GpuBackend.Rocm⟩ := by
  unfold detect_amd_gpu_rocm
  have hz : rocm_fold (rustLines vram_text) = (0, 0) := rocm_fold_zero _ h
  simp only [cmdText, hz]
  norm_num

/-- C9 witness: a vram report without totals and a product-name report naming
a card with a positive table estimate. -/
theorem claim_C9_witness :
    detect_amd_gpu_rocm (some (true, some "WARNING: no compatible devices"))
        (some (true, some "Card Series: Radeon RX 7900 XTX")) =
      some ⟨true,
        match cmdText (some (true, some "Card Series: Radeon RX 7900 XTX"))
            |>.bind (fun t => rocm_card_name (rustLines t)) with
        | some n =>
          if 0 < estimate_vram_from_name n then some (estimate_vram_from_name n) else none
        | none => none,
        cmdText (some (true, some "Card Series: Radeon RX 7900 XTX"))
          |>.bind (fun t => rocm_card_name (rustLines t)),
        1, false, GpuBackend.Rocm⟩ :=
  claim_C9_rocm_no_total "WARNING: no compatible devices" _ (by decide)

/-- A value produced by the vm_stat strategy is strictly positive. -/
theorem available_ram_from_vm_stat_pos (vmOut : CmdOutput) (a : ℚ)
    (h : available_ram_from_vm_stat vmOut = some a) : 0 < a := by
  unfold available_ram_from_vm_stat at h
  rcases hc : cmdText vmOut with _ | text
  · rw [hc] at h; cases h
  · rw [hc] at h
    dsimp only at h
    split at h
    · rename_i hpos
      cases h
      apply div_pos
      · exact_mod_cast hpos
      · norm_num
    · cases h

/-- C2 fails as stated: with one byte-scale total, no used reading and a
vm_stat report of many free pages, the fallback returns more than the total. -/
theorem claim_C2_counterexample :
    available_ram_fallback 0 (2 ^ 30) 1 (some (true, some "Pages free: 131072.")) = 2 ∧
    (1 : ℚ) = ((2 ^ 30 : Nat) : ℚ) / 2 ^ 30 ∧
    ¬ ((2 : ℚ) ≤ 1) := by
  have hc : vm_stat_counts (rustLines "Pages free: 131072.") = (131072, 0, 0) := by decide
  have hp : vm_stat_page_size (rustLines "Pages free: 131072.") = 16384 := by decide
  have hv : available_ram_from_vm_stat (some (true, some "Pages free: 131072.")) =
      some ((2147483648 : ℚ) / 2 ^ 30) := by
    unfold available_ram_from_vm_stat
    simp only [cmdText]
    rw [hc, hp]
    norm_num
  refine ⟨?_, by norm_num, by norm_num⟩
  unfold available_ram_fallback
  rw [if_neg (by omega), hv]
  show (2147483648 : ℚ) / 2 ^ 30 = 2
  norm_num

/-- C2 (amended): the fallback always returns a strictly positive value; the
value is bounded by the total whenever it comes from the `total - used` path
or from the conservative 80% default, while a value taken from vm_stat output
is positive but not bounded by the total. -/
theorem claim_C2_amended (used total_bytes : Nat) (total_gb : ℚ) (vmOut : CmdOutput)
    (h1 : 0 < total_bytes) (h2 : total_gb = (total_bytes : ℚ) / 2 ^ 30) :
    0 < available_ram_fallback used total_bytes total_gb vmOut ∧
    ((0 < used ∧ used < total_bytes) ∨ available_ram_from_vm_stat vmOut = none →
      available_ram_fallback used total_bytes total_gb vmOut ≤ total_gb) := by
  have htg : 0 < total_gb := by
    rw [h2]
    apply div_pos
    · exact_mod_cast h1
    · norm_num
  unfold available_ram_fallback
  by_cases hu : 0 < used ∧ used < total_bytes
  · rw [if_pos hu]
    constructor
    · apply div_pos
      · have hlt : 0 < total_bytes - used := by omega
        exact_mod_cast hlt
      · norm_num
    · intro _
      rw [h2]
      gcongr
      exact_mod_cast Nat.sub_le total_bytes used
  · rw [if_neg hu]
    rcases hv : available_ram_from_vm_stat vmOut with _ | a
    · have hmul : 0 < total_gb * (4 / 5) := mul_pos htg (by norm_num)
      exact ⟨hmul, fun _ => by linarith⟩
    · refine ⟨available_ram_from_vm_stat_pos _ _ hv, ?_⟩
      intro hcase
      rcases hcase with hcase | hcase
      · exact absurd hcase hu
      · cases hcase

/-- C2 witness: a plausible used reading keeps the fallback inside `(0, total]`. -/
theorem claim_C2_witness :
    0 < available_ram_fallback (2 ^ 29) (2 ^ 30) 1 none ∧
    available_ram_fallback (2 ^ 29) (2 ^ 30) 1 none ≤ 1 := by
  have h := claim_C2_amended (2 ^ 29) (2 ^ 30) 1 none (by norm_num)
    (by push_cast; norm_num)
  exact ⟨h.1, h.2 (Or.inr (by decide))⟩

/-- A strictly positive figure contributed by one DRM entry comes from a
parseable nonzero VRAM attribute file of that entry. -/
theorem intel_entry_check_pos (lspci : CmdOutput) (e : DrmEntry) (v : ℚ)
    (h : intel_entry_check lspci e = some v) (hv : 0 < v) :
    ∃ s b, e.mem_info_vram_total = some s ∧ parseU64? (strTrim s) = some b ∧
      0 < b ∧ v = (b : ℚ) / 2 ^ 30 := by
  unfold intel_entry_check at h
  rcases hm : e.mem_info_vram_total with _ | s
  · rw [hm] at h
    dsimp only at h
    split at h
    · cases h; exact absurd hv (by norm_num)
    · cases h
  · rw [hm] at h
    dsimp only at h
    rcases hp : parseU64? (strTrim s) with _ | b
    · rw [hp] at h
      dsimp only at h
      split at h
      · cases h; exact absurd hv (by norm_num)
      · cases h
    · rw [hp] at h
      dsimp only at h
      by_cases hb : 0 < b
      · rw [if_pos hb] at h
        dsimp only at h
        cases h
        exact ⟨s, b, rfl, hp, hb, rfl⟩
      · rw [if_neg hb] at h
        dsimp only at h
        split at h
        · cases h; exact absurd hv (by norm_num)
        · cases h

/-- A strictly positive result of the Intel DRM walk comes from an entry
whose vendor file is unreadable or reads `0x8086`, through that entry's VRAM
attribute file. -/
theorem intel_drm_scan_pos (lspci : CmdOutput) (entries : List DrmEntry) (v : ℚ)
    (h : intel_drm_scan lspci entries = some v) (hv : 0 < v) :
    ∃ e ∈ entries, (∀ ven, e.vendor = some ven → strTrim ven = "0x8086") ∧
      ∃ s b, e.mem_info_vram_total = some s ∧ parseU64? (strTrim s) = some b ∧
        0 < b ∧ v = (b : ℚ) / 2 ^ 30 := by
  induction entries with
  | nil => exact absurd h (by simp [intel_drm_scan])
  | cons e rest ih =>
    rw [intel_drm_scan] at h
    rcases hev : e.vendor with _ | ven
    · rw [hev] at h
      dsimp only at h
      rcases hck : intel_entry_check lspci e with _ | w
      · rw [hck] at h
        dsimp only at h
        obtain ⟨x, hx, hrest⟩ := ih h
        exact ⟨x, by simp [hx], hrest⟩
      · rw [hck] at h
        dsimp only at h
        cases h
        refine ⟨e, by simp, ?_, intel_entry_check_pos _ _ _ hck hv⟩
        intro ven hven
        rw [hev] at hven
        cases hven
    · rw [hev] at h
      dsimp only at h
      by_cases hvend : strTrim ven ≠ "0x8086"
      · rw [if_pos hvend] at h
        obtain ⟨x, hx, hrest⟩ := ih h
        exact ⟨x, by simp [hx], hrest⟩
      · rw [if_neg hvend] at h
        rcases hck : intel_entry_check lspci e with _ | w
        · rw [hck] at h
          dsimp only at h
          obtain ⟨x, hx, hrest⟩ := ih h
          exact ⟨x, by simp [hx], hrest⟩
        · rw [hck] at h
          dsimp only at h
          cases h
          refine ⟨e, by simp, ?_, intel_entry_check_pos _ _ _ hck hv⟩
          intro ven2 hven2
          rw [hev] at hven2
          cases hven2
          exact not_not.mp hvend

/-- C5 fails as stated: a device whose vendor file cannot be read falls
through the vendor gate (the source has no else branch) and its VRAM
attribute file becomes the reported reading. -/
theorem claim_C5_counterexample :
    detect_intel_gpu (some [⟨"card0", none, some "8589934592"⟩]) none = some 8 ∧
    (0 : ℚ) < 8 := by
  have hp : parseU64? (strTrim "8589934592") = some 8589934592 := by decide
  constructor
  · unfold detect_intel_gpu intel_drm_scan intel_entry_check
    simp only [hp]
    norm_num
  · norm_num

/-- C5 (amended): a strictly positive VRAM figure reported by the Intel probe
is a direct attribute-file reading of a device entry whose vendor identifier
either cannot be read or reads as the Intel id `0x8086`; an entry whose
vendor file reads as a different id is never the source. -/
theorem claim_C5_amended (entries : List DrmEntry) (lspci : CmdOutput) (v : ℚ)
    (hres : detect_intel_gpu (some entries) lspci = some v) (hv : 0 < v) :
    ∃ e ∈ entries, (∀ ven, e.vendor = some ven → strTrim ven = "0x8086") ∧
      ∃ s b, e.mem_info_vram_total = some s ∧ parseU64? (strTrim s) = some b ∧
        0 < b ∧ v = (b : ℚ) / 2 ^ 30 := by
  unfold detect_intel_gpu at hres
  dsimp only at hres
  rcases hscan : intel_drm_scan lspci entries with _ | w
  · rw [hscan] at hres
    dsimp only at hres
    split at hres
    · cases hres; exact absurd hv (by norm_num)
    · cases hres
  · rw [hscan] at hres
    dsimp only at hres
    cases hres
    exact intel_drm_scan_pos _ _ _ hscan hv

/-- C5 witness: a matching Intel vendor id with a 2 GiB attribute reading. -/
theorem claim_C5_witness :
    ∃ e ∈ [(⟨"card0", some "0x8086", some "2147483648"⟩ : DrmEntry)],
      (∀ ven, e.vendor = some ven → strTrim ven = "0x8086") ∧
      ∃ s b, e.mem_info_vram_total = some s ∧ parseU64? (strTrim s) = some b ∧
        0 < b ∧ (2 : ℚ) = (b : ℚ) / 2 ^ 30 :=
  claim_C5_amended [⟨"card0", some "0x8086", some "2147483648"⟩] none 2
    (by
      have hp : parseU64? (strTrim "2147483648") = some 2147483648 := by decide
      unfold detect_intel_gpu intel_drm_scan intel_entry_check
      simp only [hp]
      norm_num
      rw [if_pos (by decide : strTrim "0x8086" = "0x8086")])
    (by norm_num)

/-- Effect of one nvidia-smi loop iteration on a line carrying a parseable
VRAM figure: the figure is added, the device is counted, and the line's name
field fills a still-empty representative name. -/
theorem nvidia_line_step_parse (acc : NvAcc) (line : String) (v : ℚ)
    (hv : lineVram? line = some v) :
    nvidia_line_step acc line =
      ⟨acc.total_vram_mb + v, acc.count + 1,
        match acc.first_name with
        | some n => some n
        | none => lineName? line⟩ := by
  unfold lineVram? at hv
  unfold nvidia_line_step
  dsimp only at hv ⊢
  by_cases hemp : (strTrim line).data.isEmpty = true
  · rw [if_pos hemp] at hv
    cases hv
  · rw [if_neg hemp] at hv
    rw [if_neg hemp]
    rcases hh : (strSplitn2 (strTrim line) ",").head? with _ | vs
    · rw [hh] at hv
      cases hv
    · rw [hh] at hv
      dsimp only [Option.bind] at hv
      dsimp only
      rw [hv]
      dsimp only
      simp only [NvAcc.mk.injEq, true_and]
      cases acc.first_name
      · unfold lineName?
        cases hg : (strSplitn2 (strTrim line) ",").get? 1 <;> simp [hg]
      · rfl

/-- Aggregation of the nvidia-smi loop over lines that all carry parseable
VRAM figures: figures are summed, lines are counted, and the representative
name is the first name field present. -/
theorem nvidia_fold_spec (lines : List String) (acc : NvAcc)
    (h : ∀ l ∈ lines, (lineVram? l).isSome = true) :
    lines.foldl nvidia_line_step acc =
      ⟨acc.total_vram_mb + sumVram lines, acc.count + lines.length,
        match acc.first_name with
        | some n => some n
        | none => (lines.filterMap lineName?).head?⟩ := by
  induction lines generalizing acc with
  | nil =>
    simp only [List.foldl_nil, sumVram, List.map_nil, List.sum_nil, List.length_nil,
      List.filterMap_nil]
    cases acc with
    | mk t c f =>
      cases f <;> simp
  | cons l rest ih =>
    obtain ⟨v, hv⟩ := Option.isSome_iff_exists.mp (h l (by simp))
    rw [List.foldl_cons, nvidia_line_step_parse acc l v hv,
      ih _ (fun x hx => h x (by simp [hx]))]
    simp only [NvAcc.mk.injEq]
    refine ⟨?_, ?_, ?_⟩
    · dsimp only
      have hsum : sumVram (l :: rest) = v + sumVram rest := by
        unfold sumVram
        rw [List.map_cons, List.sum_cons, hv]
        rfl
      rw [hsum]
      ring
    · dsimp only
      rw [List.length_cons]
      ring
    · dsimp only
      cases acc.first_name
      · rw [List.filterMap_cons]
        cases hn : lineName? l
        · simp
        · simp
      · rfl

/-- C7 fails as stated at the near-zero corner: three devices of equal
capacity 0 are counted and named, but the reported VRAM is the name-based
estimate, not the sum `3 × 0`. -/
theorem claim_C7_counterexample :
    nvidia_probe (some (true, some "0, RTX 4090\n0, RTX 4090\n0, RTX 4090")) =
      some ⟨true, some 24, some "RTX 4090", 3, false, GpuBackend.Cuda⟩ ∧
    sumVram (rustLines "0, RTX 4090\n0, RTX 4090\n0, RTX 4090") = 3 * 0 ∧
    (24 : ℚ) ≠ 3 * 0 := by
  have hL : rustLines "0, RTX 4090\n0, RTX 4090\n0, RTX 4090" =
      ["0, RTX 4090", "0, RTX 4090", "0, RTX 4090"] := by decide
  have hv : lineVram? "0, RTX 4090" = some (1 * ((0 : ℕ) : ℚ)) := rfl
  have hname : lineName? "0, RTX 4090" = some "RTX 4090" := by decide
  have hsum : sumVram ["0, RTX 4090", "0, RTX 4090", "0, RTX 4090"] = 0 := by
    simp [sumVram, hv]
  have hest : estimate_vram_from_name "RTX 4090" = 24 := by
    simp +decide [estimate_vram_from_name]
  have hfold := nvidia_fold_spec ["0, RTX 4090", "0, RTX 4090", "0, RTX 4090"]
    ⟨0, 0, none⟩ (by decide)
  refine ⟨?_, by rw [hL, hsum]; norm_num, by norm_num⟩
  unfold nvidia_probe
  dsimp only [cmdText]
  rw [hL, hfold, hsum]
  dsimp only
  simp only [List.filterMap_cons, hname, List.head?_cons, List.length_cons,
    List.length_nil]
  rw [hest]
  norm_num

/-- C7 (amended): over a successful nvidia-smi output in which every line
carries a parseable VRAM figure and a device name, and whose summed VRAM
converts to at least 0.1 GiB, the probe reports the sum of all figures, the
number of lines as the device count, and the first line's name. -/
theorem claim_C7_amended (text : String)
    (h1 : ∀ l ∈ rustLines text, (lineVram? l).isSome = true)
    (h2 : ∀ l ∈ rustLines text, (lineName? l).isSome = true)
    (h3 : rustLines text ≠ [])
    (h4 : 1 / 10 ≤ sumVram (rustLines text) / 1024) :
    nvidia_probe (some (true, some text)) =
      some ⟨true, some (sumVram (rustLines text) / 1024),
        (rustLines text).head?.bind lineName?,
        (rustLines text).length, false, GpuBackend.Cuda⟩ := by
  have hname : ((rustLines text).filterMap lineName?).head? =
      (rustLines text).head?.bind lineName? := by
    rcases hl : rustLines text with _ | ⟨a, rest⟩
    · rfl
    · obtain ⟨nm, hnm⟩ := Option.isSome_iff_exists.mp (h2 a (by rw [hl]; simp))
      rw [List.filterMap_cons, hnm]
      simp [hnm]
  have hlen : 0 < (rustLines text).length := List.length_pos.mpr h3
  unfold nvidia_probe
  dsimp only [cmdText]
  rw [nvidia_fold_spec _ _ h1]
  dsimp only
  simp only [zero_add]
  rw [if_pos hlen]
  rw [if_neg (not_lt.mpr h4)]
  rw [if_pos (lt_of_lt_of_le (by norm_num : (0 : ℚ) < 1 / 10) h4)]
  rw [hname]

/-- C7 witness: three devices of 8192 MB each yield 24 GiB, count 3, and the
first device's name. -/
theorem claim_C7_witness :
    nvidia_probe
        (some (true, some "8192, RTX 4090\n8192, RTX 4090\n8192, RTX 4090")) =
      some ⟨true,
        some (sumVram (rustLines "8192, RTX 4090\n8192, RTX 4090\n8192, RTX 4090") / 1024),
        (rustLines "8192, RTX 4090\n8192, RTX 4090\n8192, RTX 4090").head?.bind lineName?,
        (rustLines "8192, RTX 4090\n8192, RTX 4090\n8192, RTX 4090").length,
        false, GpuBackend.Cuda⟩ :=
  claim_C7_amended "8192, RTX 4090\n8192, RTX 4090\n8192, RTX 4090"
    (by decide) (by decide) (by decide)
    (by
      have hL : rustLines "8192, RTX 4090\n8192, RTX 4090\n8192, RTX 4090" =
          ["8192, RTX 4090", "8192, RTX 4090", "8192, RTX 4090"] := by decide
      have hv : lineVram? "8192, RTX 4090" = some (1 * ((8192 : ℕ) : ℚ)) := rfl
      rw [hL]
      simp [sumVram, hv]
      norm_num)

/-- C6 fails as stated: a selected adapter with a zero raw reading and a table
value of 4 GiB (not above the 4.1 GiB cap) gets the table value, so the raw
reading is not kept. -/
theorem claim_C6_counterexample :
    parse_windows_gpu_entries "GeForce GTX 1650|0" =
      some ⟨true, some 4, some "GeForce GTX 1650", 1, false, GpuBackend.Cuda⟩ ∧
    (4 : ℚ) ≠ (0 : ℚ) / 2 ^ 30 := by
  have hsel : parse_windows_best "GeForce GTX 1650|0" =
      ⟨some "GeForce GTX 1650", 0, 1⟩ := by decide
  have hest : estimate_vram_from_name "GeForce GTX 1650" = 4 := by
    simp +decide [estimate_vram_from_name]
  have hb : infer_gpu_backend "GeForce GTX 1650" = GpuBackend.Cuda := by
    simp +decide [infer_gpu_backend]
  constructor
  · unfold parse_windows_gpu_entries
    rw [hsel]
    dsimp only
    unfold windows_vram_fixup
    rw [hest, hb]
    norm_num
  · norm_num

/-- C6 (amended): for a selected adapter whose raw reading converts to at
most 4.1 GiB, a table value above 4.1 GiB replaces the raw reading; otherwise
the raw reading is kept unless it is below 0.1 GiB and the table value is
positive, in which case the table value is used; a zero figure is reported as
`none`. -/
theorem claim_C6_amended (text name : String) (bv c : Nat)
    (hsel : parse_windows_best text = ⟨some name, bv, c⟩)
    (hcap : (bv : ℚ) / 2 ^ 30 ≤ 41 / 10) :
    ∃ r, parse_windows_gpu_entries text = some r ∧
      r.gpu_vram_gb =
        (if 41 / 10 < estimate_vram_from_name name then
          some (estimate_vram_from_name name)
         else if (bv : ℚ) / 2 ^ 30 < 1 / 10 ∧ 0 < estimate_vram_from_name name then
           some (estimate_vram_from_name name)
         else if 0 < (bv : ℚ) / 2 ^ 30 then some ((bv : ℚ) / 2 ^ 30) else none) := by
  unfold parse_windows_gpu_entries
  rw [hsel]
  dsimp only
  refine ⟨_, rfl, ?_⟩
  unfold windows_vram_fixup
  dsimp only
  set est := estimate_vram_from_name name with hest
  set raw : ℚ := (bv : ℚ) / 2 ^ 30 with hraw
  by_cases h1 : 41 / 10 < est
  · rw [if_pos (Or.inr ⟨hcap, h1⟩), if_pos (show 0 < est by linarith),
      if_pos (show 0 < est by linarith), if_pos h1]
  · rw [if_neg h1]
    by_cases h2 : raw < 1 / 10 ∧ 0 < est
    · rw [if_pos h2, if_pos (Or.inl h2.1), if_pos h2.2, if_pos h2.2]
    · rw [if_neg h2]
      have hfix : (if raw < 1 / 10 ∨ (raw ≤ 41 / 10 ∧ 41 / 10 < est) then
          (if 0 < est then est else raw) else raw) = raw := by
        by_cases hc : raw < 1 / 10 ∨ (raw ≤ 41 / 10 ∧ 41 / 10 < est)
        · rcases hc with hc | hc
          · rw [if_pos (Or.inl hc), if_neg (fun hpos => h2 ⟨hc, hpos⟩)]
          · exact absurd hc.2 h1
        · rw [if_neg hc]
      rw [hfix]

/-- C6 witness: a 1 GiB raw reading for a card whose table capacity is
24 GiB triggers the table override. -/
theorem claim_C6_witness :
    ∃ r, parse_windows_gpu_entries "Radeon RX 7900 XTX|1073741824" = some r ∧
      r.gpu_vram_gb =
        (if 41 / 10 < estimate_vram_from_name "Radeon RX 7900 XTX" then
          some (estimate_vram_from_name "Radeon RX 7900 XTX")
         else if ((1073741824 : ℕ) : ℚ) / 2 ^ 30 < 1 / 10 ∧
             0 < estimate_vram_from_name "Radeon RX 7900 XTX" then
           some (estimate_vram_from_name "Radeon RX 7900 XTX")
         else if 0 < ((1073741824 : ℕ) : ℚ) / 2 ^ 30 then
           some (((1073741824 : ℕ) : ℚ) / 2 ^ 30)
         else none) :=
  claim_C6_amended "Radeon RX 7900 XTX|1073741824" "Radeon RX 7900 XTX"
    1073741824 1 (by decide) (by push_cast; norm_num)

/-- C1: behavior of the code at the failing input.  On an Apple Silicon host
with 16 GiB total and 8 GiB available RAM the unified-memory probe fires, yet
the snapshot reports the available-RAM figure as VRAM: the call site hands
`available_ram_gb` to `detect_apple_gpu`, whose own documentation and
parameter name promise the total.  The claim (and the spec) require
`gpu_vram_gb = total_ram_gb = 16`; the code yields 8. -/
theorem claim_C1_code_at_failing_input :
    (SystemSpecs.detect appleEnv).unified_memory = true ∧
    (SystemSpecs.detect appleEnv).total_ram_gb = 16 ∧
    (SystemSpecs.detect appleEnv).available_ram_gb = 8 ∧
    (SystemSpecs.detect appleEnv).gpu_vram_gb =
      some (SystemSpecs.detect appleEnv).available_ram_gb ∧
    (SystemSpecs.detect appleEnv).gpu_vram_gb ≠ some 16 := by
  have havail : (SystemSpecs.detect appleEnv).available_ram_gb = 8 := by
    show ((8 * 2 ^ 30 : ℕ) : ℚ) / 2 ^ 30 = 8
    push_cast
    norm_num
  have hvram : (SystemSpecs.detect appleEnv).gpu_vram_gb =
      some (SystemSpecs.detect appleEnv).available_ram_gb := rfl
  refine ⟨by decide, ?_, havail, hvram, ?_⟩
  · show ((16 * 2 ^ 30 : ℕ) : ℚ) / 2 ^ 30 = 16
    push_cast
    norm_num
  · rw [hvram, havail]
    norm_num
